import Mathlib

set_option maxRecDepth 8000

/-!
Shallow embedding of the bstool pipeline (`src/main.py`) in Lean 4.

Modeling conventions, fixed once here:

* Python strings are sequences of Unicode code points; they are embedded as
  Lean `String` with all operations implemented over `String.data`
  (`List Char`), so that every definition is executable and
  kernel-reducible.  Python slicing `s[:n]`, `str.strip`, `str.lower`,
  `str.splitlines`, `str.replace` and substring containment `in` are
  embedded by the `py*` functions below.  `splitlines` is modeled as
  splitting on `"\n"` only; the difference (other line boundaries, the
  dropped trailing empty line) is unobservable in `body_trim`, the only
  caller, because empty lines are filtered out in both of its branches.
* `datetime` instants are embedded as `Int` (seconds on the UTC timeline).
  `isoformat` and `parse_iso` form an order-preserving bijection between
  datetimes and their ISO-8601 strings, so both are modeled as the
  identity and timestamp values are stored directly.  `timedelta(days=n)`
  is `n * 86400`.
* Python dicts (`posted_ids`, the global state keyed by site) are embedded
  as insertion-ordered association lists with the dict update semantics:
  assigning to an existing key replaces its value in place, assigning a
  fresh key appends.  Keys of a real dict are distinct; theorems that need
  this carry an explicit `Nodup` hypothesis.
* CVSS scores are floats with one decimal digit as delivered by the NVD
  API; they are embedded in tenths (`score10 : Option Int`, so `9.8` is
  `some 98`), with `none` for an absent `score` key (whose Python default
  `item.get("score", 0)` is the integer `0`, rendered `"0"`).
* The network boundary (feed fetching, the Gemini `generate_content`
  call, the Bluesky client) is external, exactly as in the spec's §6
  interface section: fetched items arrive as inputs, and each item's
  would-be summarization outcome is an oracle value `GenOutcome`
  (`ok text`, or `err e` for a raised exception, with the exception kind
  recorded so that rate-limit handling claims can be stated).
  `post_bluesky` and the `[TEST]` log line are recorded as the text handed
  to them (`published` / `logged` lists); `time.sleep` has no effect on
  state and is dropped.
* The run is modeled over current-schema states (every site value a dict
  with `posted_ids` a dict).  `normalize_site_state` (main.py lines
  62–85) then reduces to lazy creation of a fresh
  `{last_checked_at: None, posted_ids: {}}` entry, which is what
  `normState` below does; the legacy list-shape migration paths are not
  exercised by any claim.
-/

namespace BSTool

/-! ### Python string primitives over code-point lists -/

/-- Python slicing `s[:n]` (for `n ≥ 0`): the first `n` code points. -/
def pySlice (s : String) (n : Nat) : String := ⟨s.data.take n⟩

/-- Python `str.strip()`: drop whitespace from both ends. -/
def pyStrip (s : String) : String :=
  ⟨((s.data.dropWhile Char.isWhitespace).reverse.dropWhile Char.isWhitespace).reverse⟩

/-- Python `str.lower()`. -/
def pyLower (s : String) : String := ⟨s.data.map Char.toLower⟩

/-- Python `pat in s`: substring containment. -/
def pyContains (s pat : String) : Bool := decide (pat.data <:+: s.data)

/-- Python `str.splitlines()`, modeled as splitting on `'\n'`. -/
def pySplitLinesAux : List Char → List Char → List String
  | [], acc => [⟨acc.reverse⟩]
  | c :: rest, acc =>
    if c = '\n' then ⟨acc.reverse⟩ :: pySplitLinesAux rest []
    else pySplitLinesAux rest (c :: acc)

def pySplitLines (s : String) : List String := pySplitLinesAux s.data []

/-- Python `sep.join(xs)`. -/
def pyJoin (sep : String) (xs : List String) : String :=
  ⟨List.intercalate sep.data (xs.map String.data)⟩

/-- Python `s.replace(pat, rep)` on code-point lists: left-to-right,
non-overlapping replacement of every occurrence.  The recursion is
structural on a fuel argument (each step consumes at least one input
character, so `fuel = input length` suffices and keeps the definition
kernel-reducible).  The `pat = []` case (never reached: the only call
site uses `"\n"`) returns the input. -/
def pyReplaceAux (pat rep : List Char) : Nat → List Char → List Char
  | _, [] => []
  | 0, l => l
  | fuel + 1, c :: rest =>
    if pat ≠ [] ∧ pat.isPrefixOf (c :: rest) then
      rep ++ pyReplaceAux pat rep fuel ((c :: rest).drop pat.length)
    else
      c :: pyReplaceAux pat rep fuel rest

def pyReplace (s pat rep : String) : String :=
  ⟨pyReplaceAux pat.data rep.data s.data.length s.data⟩

/-! ### Constants (main.py lines 16–21) -/

def MAX_POST_LENGTH : Nat := 140
def SUMMARY_HARD_LIMIT : Nat := 80
def POSTED_ID_RETENTION_DAYS : Int := 30
def POSTED_ID_MAX : Nat := 1000

/-! ### Time (main.py lines 26–36) -/

/-- UTC instants in seconds; `isoformat`/`parse_iso` are the identity under
this embedding (see the header note). -/
abbrev Time := Int

def SECONDS_PER_DAY : Int := 86400

/-- `now - timedelta(days=POSTED_ID_RETENTION_DAYS)` from `prune_posted_ids`. -/
def retentionCutoff (now : Time) : Time :=
  now - POSTED_ID_RETENTION_DAYS * SECONDS_PER_DAY

/-! ### State data model -/

/-- The `posted_ids` dict: cid → timestamp, insertion ordered. -/
abbrev PostedIds := List (String × Time)

/-- Python `k in d`. -/
def dictMem (m : PostedIds) (k : String) : Bool := m.any (fun p => p.1 = k)

/-- Python `d[k] = v`: replace in place if present, else append. -/
def dictSet (m : PostedIds) (k : String) (v : Time) : PostedIds :=
  if dictMem m k then m.map (fun p => if p.1 = k then (k, v) else p)
  else m ++ [(k, v)]

/-- One site's entry in the state file: `last_checked_at` (None ↦ `none`)
and the `posted_ids` dict. -/
structure SiteState where
  last_checked_at : Option Time
  posted_ids : PostedIds
deriving DecidableEq

/-- The working copy of the whole state file, keyed by site key. -/
abbrev GlobalState := List (String × SiteState)

def getSite : GlobalState → String → Option SiteState
  | [], _ => none
  | p :: rest, k => if p.1 = k then some p.2 else getSite rest k

def setSite : GlobalState → String → SiteState → GlobalState
  | [], k, v => [(k, v)]
  | p :: rest, k, v => if p.1 = k then (k, v) :: rest else p :: setSite rest k v

def updateSite : GlobalState → String → (SiteState → SiteState) → GlobalState
  | [], _, _ => []
  | p :: rest, k, f => if p.1 = k then (k, f p.2) :: rest else p :: updateSite rest k f

/-- `state[site_key] = normalize_site_state(...)` (main.py lines 370–371)
restricted to current-schema states: an absent site key gets the fresh
`{last_checked_at: None, posted_ids: {}}` entry, a present one is kept. -/
def normState (st : GlobalState) (k : String) : GlobalState :=
  setSite st k ((getSite st k).getD ⟨none, []⟩)

/-! ### prune_posted_ids (main.py lines 87–105) -/

/-- `prune_posted_ids(posted_ids, now)`: drop entries older than the
retention cutoff, then, if more than `POSTED_ID_MAX` remain, delete the
oldest-by-timestamp surplus keys; returns the pruned dict and the number
of removed entries (`before - len(posted_ids)`). -/
def prune_posted_ids (m : PostedIds) (now : Time) : PostedIds × Nat :=
  let before := m.length
  let cutoff := retentionCutoff now
  let kept := m.filter (fun p => decide (¬ p.2 < cutoff))
  let kept2 :=
    if POSTED_ID_MAX < kept.length then
      let sorted := kept.mergeSort (fun a b => decide (a.2 ≤ b.2))
      let toRemove := sorted.take (kept.length - POSTED_ID_MAX)
      kept.filter (fun p => decide (p.1 ∉ toRemove.map Prod.fst))
    else kept
  (kept2, before - kept2.length)

/-! ### Common helpers (main.py lines 110–123) -/

/-- `cvss_to_severity(score)`, scores in tenths. -/
def cvss_to_severity (score10 : Int) : String :=
  if 90 ≤ score10 then "CRITICAL"
  else if 70 ≤ score10 then "HIGH"
  else if 40 ≤ score10 then "MEDIUM"
  else "LOW"

/-- `safe_truncate(text, limit)` (main.py lines 120–123). -/
def safe_truncate (text : String) (limit : Nat) : String :=
  if text.length ≤ limit then text
  else pySlice text (limit - 1) ++ "…"

/-! ### Site / item model -/

inductive SiteType
  | rss | nvd_api | jvn | other
deriving DecidableEq

structure Site where
  enabled : Bool
  type : SiteType
deriving DecidableEq

/-- A fetched candidate item.  `id = ""` models a missing/None id (both are
falsy in the Python checks).  `score10` is the CVSS score in tenths,
`none` when the `score` key is absent (Python default `0`). -/
structure Item where
  id : String
  text : String
  url : String
  score10 : Option Int
deriving DecidableEq

/-- Python `str(...)` of the score value `item.get("score", 0)`: the
integer default renders as `"0"`, a one-decimal float as `"d.d"`. -/
def scoreText : Option Int → String
  | none => "0"
  | some n => toString (n / 10) ++ "." ++ toString (n % 10)

/-! ### is_cve_already_posted (main.py lines 151–159) -/

/-- `state.get("nvd", {}).get("posted_ids", {})`: the shared identity
index lives under the `"nvd"` site key. -/
def nvdPostedIds (state : GlobalState) : PostedIds :=
  ((getSite state "nvd").map SiteState.posted_ids).getD []

/-- `is_cve_already_posted(cid, site_type, state)`: RSS is never checked;
scored types are checked against the shared `"nvd"` posted_ids only. -/
def is_cve_already_posted (cid : String) (site_type : SiteType)
    (state : GlobalState) : Bool :=
  if cid = "" ∨ site_type = .rss then false
  else dictMem (nvdPostedIds state) cid

/-! ### format_post (main.py lines 164–173) -/

/-- The `cve_line` f-string of `format_post`. -/
def cve_line (item : Item) : String :=
  item.id ++ " CVSS " ++ scoreText item.score10 ++ " | "
    ++ cvss_to_severity (item.score10.getD 0)

/-- `format_post(site, summary, item)`: the summary (newlines flattened)
truncated to `MAX_POST_LENGTH`; scored-feed sources get the CVE line
appended on a new line.  The item URL is not part of the returned text. -/
def format_post (site : Site) (summary : String) (item : Item) : String :=
  let summary_text := safe_truncate (pyReplace summary "\n" " ") MAX_POST_LENGTH
  if site.type = .nvd_api ∨ site.type = .jvn then
    summary_text ++ "\n" ++ cve_line item
  else
    summary_text

/-! ### summarize (main.py lines 178–209) -/

/-- The exception raised by `client.models.generate_content`, as far as the
code could tell them apart: a rate-limit error, a transient
service-unavailable error, or anything else (including a `None`
response text, whose `.strip()` raises inside the same `try`). -/
inductive GenError
  | rateLimit | transient | other
deriving DecidableEq

/-- Outcome of the external `generate_content` call for one item. -/
inductive GenOutcome
  | ok (text : String)
  | err (e : GenError)
deriving DecidableEq

/-- The fixed fallback string returned when summarization raises
(main.py line 209). -/
def FALLBACK_SUMMARY : String := "セキュリティ上の問題に関する脆弱性が確認されています。"

/-- `summarize(text, api_key, site_type)`: a single `generate_content`
attempt; on success the stripped response is truncated to
`SUMMARY_HARD_LIMIT`, on any exception the fixed fallback is returned.
The prompt (which is all `site_type` selects) does not influence the
returned value and is not modeled; the call's outcome is the oracle
`gen`. -/
def summarize (gen : GenOutcome) : String :=
  match gen with
  | .ok t => safe_truncate (pyStrip t) SUMMARY_HARD_LIMIT
  | .err _ => FALLBACK_SUMMARY

/-! ### body_trim (main.py lines 128–146) -/

def VULN_KEYWORDS : List String :=
  ["allow", "allows", "could", "can",
   "vulnerability", "attack", "execute",
   "disclosure", "denial"]

/-- `body_trim(text, max_len=2500, site_type)`: scored-feed sources keep
only lines containing a vulnerability keyword (stripped, space-joined);
generic sources keep the first 6 stripped lines longer than 10
characters; both capped at `max_len`. -/
def body_trim (text : String) (site_type : SiteType)
    (max_len : Nat := 2500) : String :=
  if site_type = .nvd_api ∨ site_type = .jvn then
    let lines := ((pySplitLines text).filter
      (fun l => VULN_KEYWORDS.any (fun k => pyContains (pyLower l) k))).map pyStrip
    pySlice (pyJoin " " lines) max_len
  else
    let lines := ((pySplitLines text).map pyStrip).filter (fun l => 10 < l.length)
    pySlice (pyJoin "\n" (lines.take 6)) max_len

/-! ### The per-run orchestration (main.py lines 330–469) -/

/-- The settings read at main.py lines 337–339: `mode` (the lowered
`settings["mode"]` string), `force_test_mode`, and
`skip_existing_on_first_run`. -/
structure RunConfig where
  mode : String
  force_test : Bool
  skip_first : Bool
deriving DecidableEq

/-- Accumulator of the per-site item loop (main.py lines 408–433):
the working state plus the run counters and the texts handed to
`post_bluesky` (`published`) or to the `[TEST]` log (`logged`). -/
structure SiteAcc where
  state : GlobalState
  posted_count : Nat
  cve_skip_count : Nat
  published : List String
  logged : List String
deriving DecidableEq

/-- One iteration of the item loop (main.py lines 408–433).  The item
comes paired with the oracle outcome its `generate_content` call would
have. -/
def processItem (cfg : RunConfig) (site : Site) (now : Time)
    (acc : SiteAcc) (ig : Item × GenOutcome) : SiteAcc :=
  let item := ig.1
  let cid := item.id
  if is_cve_already_posted cid site.type acc.state then
    { acc with cve_skip_count := acc.cve_skip_count + 1 }
  else
    let trimmed := body_trim item.text site.type
    let summary := if cfg.force_test then pySlice trimmed SUMMARY_HARD_LIMIT
      else summarize ig.2
    let post_text := format_post site summary item
    let acc :=
      if cfg.mode = "test" then
        { acc with logged := acc.logged ++ [post_text],
                   posted_count := acc.posted_count + 1 }
      else
        { acc with published := acc.published ++ [post_text],
                   posted_count := acc.posted_count + 1 }
    if cid ≠ "" ∧ site.type ≠ .rss then
      let nvdState := (getSite acc.state "nvd").getD ⟨none, []⟩
      let posted := dictSet nvdState.posted_ids cid now
      let posted := (prune_posted_ids posted now).1
      { acc with state := setSite acc.state "nvd" { nvdState with posted_ids := posted } }
    else acc

/-- Result of processing one enabled source (the loop body, main.py lines
362–466). -/
structure SiteResult where
  state : GlobalState
  fetched_count : Nat
  posted_count : Nat
  cve_skip_count : Nat
  published : List String
  logged : List String
  first_skip : Bool
deriving DecidableEq

/-- The per-source body of `main` for an enabled source of a known type:
normalize the site's entry, compute `first_skip`, run the item loop
(unless first-skipped), and finally set `last_checked_at = now`
unconditionally (main.py lines 461–466).  The fetch window
`(since, until] = (last_checked or now-1d, now]` is applied by the
external fetcher; `items` is its result, each item paired with its
summarization oracle outcome. -/
def processSite (cfg : RunConfig) (siteKey : String) (site : Site)
    (state : GlobalState) (now : Time)
    (items : List (Item × GenOutcome)) : SiteResult :=
  let state := normState state siteKey
  let site_state := (getSite state siteKey).getD ⟨none, []⟩
  let first_skip := site_state.last_checked_at.isNone
    && cfg.skip_first && (cfg.mode == "prod")
  let acc0 : SiteAcc := ⟨state, 0, 0, [], []⟩
  let acc := if first_skip then acc0
    else items.foldl (processItem cfg site now) acc0
  let state2 := updateSite acc.state siteKey
    (fun s => { s with last_checked_at := some now })
  ⟨state2, items.length, acc.posted_count, acc.cve_skip_count,
    acc.published, acc.logged, first_skip⟩

/-- One configured site together with what the external fetcher returns
for this run's window and the per-item summarization oracle. -/
structure SiteSpec where
  key : String
  site : Site
  items : List (Item × GenOutcome)

/-- Run-level accumulator: working state, the `state_dirty` flag, and the
collected outputs. -/
structure RunAcc where
  state : GlobalState
  dirty : Bool
  published : List String
  logged : List String
deriving DecidableEq

/-- One iteration of the site loop (main.py lines 355–466): disabled sites
are skipped; an unknown type hits the `continue` at line 397 after the
state normalization of lines 370–371; otherwise the full per-source body
runs and `state_dirty` is set (line 466). -/
def runStep (cfg : RunConfig) (now : Time) (acc : RunAcc) (s : SiteSpec) : RunAcc :=
  if s.site.enabled = false then acc
  else if s.site.type = .other then
    { acc with state := normState acc.state s.key }
  else
    let r := processSite cfg s.key s.site acc.state now s.items
    { state := r.state, dirty := true,
      published := acc.published ++ r.published,
      logged := acc.logged ++ r.logged }

/-- Result of a whole run: the final working state, what `save_state`
wrote (`none` when nothing was written), the outputs, and the final
`state_dirty` flag. -/
structure RunResult where
  state : GlobalState
  written : Option GlobalState
  published : List String
  logged : List String
  state_dirty : Bool
deriving DecidableEq

/-- `main()` (main.py lines 330–469) over current-schema states: iterate
the site loop over the working copy of the loaded state and, at the end,
write the state back iff the mode is `"prod"` and `state_dirty` was set. -/
def runMain (cfg : RunConfig) (sites : List SiteSpec)
    (state0 : GlobalState) (now : Time) : RunResult :=
  let a := sites.foldl (runStep cfg now) ⟨state0, false, [], []⟩
  { state := a.state,
    written := if cfg.mode = "prod" ∧ a.dirty = true then some a.state else none,
    published := a.published,
    logged := a.logged,
    state_dirty := a.dirty }

/-! ## Helper lemmas -/

theorem length_pySlice (s : String) (n : Nat) :
    (pySlice s n).length = min n s.length := by
  show (s.data.take n).length = min n s.data.length
  exact List.length_take n s.data

theorem safe_truncate_of_le {text : String} {limit : Nat}
    (h : text.length ≤ limit) : safe_truncate text limit = text := by
  simp [safe_truncate, h]

theorem safe_truncate_length_le (text : String) (limit : Nat) (h : 1 ≤ limit) :
    (safe_truncate text limit).length ≤ limit := by
  unfold safe_truncate
  split
  · assumption
  · rename_i hlt
    rw [String.length_append, length_pySlice]
    have h1 : (String.length "…") = 1 := rfl
    rw [h1]
    omega

theorem safe_truncate_of_gt {text : String} {limit : Nat}
    (h1 : 1 ≤ limit) (h : limit < text.length) :
    (safe_truncate text limit).length = limit ∧
    ∃ p, safe_truncate text limit = p ++ "…" := by
  constructor
  · unfold safe_truncate
    rw [if_neg (by omega)]
    rw [String.length_append, length_pySlice]
    have h2 : (String.length "…") = 1 := rfl
    rw [h2]
    omega
  · exact ⟨pySlice text (limit - 1), by unfold safe_truncate; rw [if_neg (by omega)]⟩

/-! ## Claim theorems -/

/-- Claim C10 (confirmed): for every string `text` and limit ≥ 1,
`safe_truncate text limit` returns `text` unchanged when
`text.length ≤ limit`, and otherwise a string of length exactly `limit`
ending in the truncation marker `…`. -/
theorem safe_truncate_spec (text : String) (limit : Nat) (h : 1 ≤ limit) :
    (text.length ≤ limit → safe_truncate text limit = text) ∧
    (limit < text.length →
      (safe_truncate text limit).length = limit ∧
      ∃ p, safe_truncate text limit = p ++ "…") :=
  ⟨fun hle => safe_truncate_of_le hle, fun hgt => safe_truncate_of_gt h hgt⟩

/-- Witness for C10 at `text = "abcdef"`, `limit = 3`. -/
theorem safe_truncate_spec_witness :
    (1 : Nat) ≤ 3 ∧
    ((safe_truncate "abcdef" 3).length = 3 ∧
      ∃ p, safe_truncate "abcdef" 3 = p ++ "…") :=
  ⟨by decide, (safe_truncate_spec "abcdef" 3 (by decide)).2 (by decide)⟩

/-- Claim C2 (corrected, amended form): `format_post` keeps the composed
text within `MAX_POST_LENGTH` only for non-scored sources; for scored
sources it is the `MAX_POST_LENGTH`-truncated summary plus a newline and
the CVE line, so only the bound `MAX_POST_LENGTH + 1 + |cve_line|` holds;
the item URL is not part of the returned text on either branch (the URL is
handed separately to the publisher, which uses it for the link embed). -/
theorem format_post_spec (site : Site) (summary : String) (item : Item) :
    ((site.type = .rss ∨ site.type = .other) →
      (format_post site summary item).length ≤ MAX_POST_LENGTH) ∧
    ((site.type = .nvd_api ∨ site.type = .jvn) →
      format_post site summary item
        = safe_truncate (pyReplace summary "\n" " ") MAX_POST_LENGTH
            ++ "\n" ++ cve_line item ∧
      (format_post site summary item).length
        ≤ MAX_POST_LENGTH + 1 + (cve_line item).length) := by
  constructor
  · intro h
    have hne : ¬ (site.type = .nvd_api ∨ site.type = .jvn) := by
      rcases h with h | h <;> simp [h]
    simp only [format_post]
    rw [if_neg hne]
    exact safe_truncate_length_le _ _ (by norm_num [MAX_POST_LENGTH])
  · intro h
    simp only [format_post]
    rw [if_pos h]
    refine ⟨rfl, ?_⟩
    rw [String.length_append, String.length_append]
    have h1 : (String.length "\n") = 1 := rfl
    rw [h1]
    have hb := safe_truncate_length_le (pyReplace summary "\n" " ")
      MAX_POST_LENGTH (by norm_num [MAX_POST_LENGTH])
    omega

/-- Witness for C2's amended theorem at a concrete generic and a concrete
scored input. -/
theorem format_post_spec_witness :
    ((format_post ⟨true, .rss⟩ "hello" ⟨"https://a", "x", "https://a", none⟩).length
      ≤ MAX_POST_LENGTH) ∧
    (format_post ⟨true, .jvn⟩ "hello" ⟨"CVE-2024-0002", "x", "u", some 55⟩
      = safe_truncate (pyReplace "hello" "\n" " ") MAX_POST_LENGTH
          ++ "\n" ++ cve_line ⟨"CVE-2024-0002", "x", "u", some 55⟩) :=
  ⟨(format_post_spec ⟨true, .rss⟩ "hello" ⟨"https://a", "x", "https://a", none⟩).1
      (Or.inl rfl),
   ((format_post_spec ⟨true, .jvn⟩ "hello" ⟨"CVE-2024-0002", "x", "u", some 55⟩).2
      (Or.inr rfl)).1⟩

/-- Claim C2 counterexample: at a 141-character summary and an `nvd_api`
item, the composed text has length 174 > `MAX_POST_LENGTH` = 140, and it
does not end with the item's URL. -/
theorem format_post_budget_counterexample :
    MAX_POST_LENGTH <
      (format_post ⟨true, .nvd_api⟩ (String.mk (List.replicate 141 'a'))
        ⟨"CVE-2024-0001", "t",
         "https://nvd.nist.gov/vuln/detail/CVE-2024-0001", some 98⟩).length ∧
    ¬ ∃ p, format_post ⟨true, .nvd_api⟩ (String.mk (List.replicate 141 'a'))
        ⟨"CVE-2024-0001", "t",
         "https://nvd.nist.gov/vuln/detail/CVE-2024-0001", some 98⟩
      = p ++ "https://nvd.nist.gov/vuln/detail/CVE-2024-0001" := by
  constructor
  · decide
  · rintro ⟨p, hp⟩
    have hs : ("https://nvd.nist.gov/vuln/detail/CVE-2024-0001" : String).data
        <:+ (format_post ⟨true, .nvd_api⟩ (String.mk (List.replicate 141 'a'))
          ⟨"CVE-2024-0001", "t",
           "https://nvd.nist.gov/vuln/detail/CVE-2024-0001", some 98⟩).data :=
      ⟨p.data, by rw [hp, String.data_append]⟩
    exact absurd hs (by decide)

theorem length_filter_notin_le (kept toRemove : PostedIds)
    (hndr : (toRemove.map Prod.fst).Nodup)
    (hsub : ∀ q ∈ toRemove, q ∈ kept) :
    (kept.filter (fun p => decide (p.1 ∉ toRemove.map Prod.fst))).length
      ≤ kept.length - toRemove.length := by
  have hPsplit := (List.filter_append_perm
      (fun p => decide (p.1 ∈ toRemove.map Prod.fst)) kept).length_eq
  rw [List.length_append] at hPsplit
  have hsubset : (toRemove.map Prod.fst)
      ⊆ (kept.filter (fun p => decide (p.1 ∈ toRemove.map Prod.fst))).map Prod.fst := by
    intro k hk
    rcases List.mem_map.mp hk with ⟨q, hq, rfl⟩
    exact List.mem_map.mpr
      ⟨q, List.mem_filter.mpr ⟨hsub q hq, by simpa using hk⟩, rfl⟩
  have hlenle : toRemove.length
      ≤ (kept.filter (fun p => decide (p.1 ∈ toRemove.map Prod.fst))).length := by
    have h := (List.Nodup.subperm hndr hsubset).length_le
    rwa [List.length_map, List.length_map] at h
  have hneg : (kept.filter (fun p => decide (p.1 ∉ toRemove.map Prod.fst)))
      = kept.filter (fun p => !(decide (p.1 ∈ toRemove.map Prod.fst))) := by
    simp only [decide_not]
  rw [hneg]
  omega

theorem trim_oldest_spec (kept toRemove res : PostedIds)
    (hnd : (kept.map Prod.fst).Nodup) (hov : POSTED_ID_MAX < kept.length)
    (htr : toRemove = (kept.mergeSort fun a b => decide (a.2 ≤ b.2)).take
        (kept.length - POSTED_ID_MAX))
    (hres : res = kept.filter (fun p => decide (p.1 ∉ toRemove.map Prod.fst))) :
    res.length ≤ POSTED_ID_MAX ∧
    (∀ p ∈ kept, p ∉ res → ∀ q ∈ res, p.2 ≤ q.2) := by
  have hperm : (kept.mergeSort fun a b => decide (a.2 ≤ b.2)).Perm kept :=
    List.mergeSort_perm kept _
  have hsortlen : (kept.mergeSort fun a b => decide (a.2 ≤ b.2)).length = kept.length :=
    hperm.length_eq
  have hsub : toRemove.Sublist (kept.mergeSort fun a b => decide (a.2 ≤ b.2)) := by
    rw [htr]; exact List.take_sublist _ _
  have hsortkeys : ((kept.mergeSort fun a b => decide (a.2 ≤ b.2)).map Prod.fst).Nodup :=
    (hperm.map Prod.fst).nodup_iff.mpr hnd
  have hndr : (toRemove.map Prod.fst).Nodup :=
    List.Nodup.sublist (hsub.map Prod.fst) hsortkeys
  have hsubmem : ∀ q ∈ toRemove, q ∈ kept := fun q hq =>
    hperm.mem_iff.mp (hsub.subset hq)
  constructor
  · have hle := length_filter_notin_le kept toRemove hndr hsubmem
    have hlenr : toRemove.length = kept.length - POSTED_ID_MAX := by
      have h : toRemove.length = min (kept.length - POSTED_ID_MAX)
          (kept.mergeSort fun a b => decide (a.2 ≤ b.2)).length := by
        rw [htr]; exact List.length_take _ _
      rw [hsortlen] at h
      omega
    rw [hres]
    omega
  · intro p hp hpnot q hq
    rw [hres] at hq hpnot
    have hq' := List.mem_filter.mp hq
    have hpkeys : p.1 ∈ toRemove.map Prod.fst := by
      by_contra hc
      exact hpnot (List.mem_filter.mpr ⟨hp, by simpa using hc⟩)
    rcases List.mem_map.mp hpkeys with ⟨r, hr, hr1⟩
    have hrp : r = p := List.inj_on_of_nodup_map hnd (hsubmem r hr) hp hr1
    have hpin : p ∈ toRemove := hrp ▸ hr
    have hqkeys : q.1 ∉ toRemove.map Prod.fst := by simpa using hq'.2
    have hqsorted : q ∈ (kept.mergeSort fun a b => decide (a.2 ≤ b.2)) :=
      hperm.mem_iff.mpr hq'.1
    have hqdrop : q ∈ (kept.mergeSort fun a b => decide (a.2 ≤ b.2)).drop
        (kept.length - POSTED_ID_MAX) := by
      have hsplit : q ∈ (kept.mergeSort fun a b => decide (a.2 ≤ b.2)).take
            (kept.length - POSTED_ID_MAX)
          ++ (kept.mergeSort fun a b => decide (a.2 ≤ b.2)).drop
            (kept.length - POSTED_ID_MAX) := by
        rw [List.take_append_drop]; exact hqsorted
      rcases List.mem_append.mp hsplit with h | h
      · exact absurd (List.mem_map.mpr ⟨q, htr ▸ h, rfl⟩) hqkeys
      · exact h
    have hpw : List.Pairwise (fun a b => decide (a.2 ≤ b.2) = true)
        (kept.mergeSort fun a b => decide (a.2 ≤ b.2)) :=
      List.sorted_mergeSort
        (fun a b c h1 h2 => by
          simp only [decide_eq_true_eq] at h1 h2 ⊢
          exact le_trans h1 h2)
        (fun a b => by
          simp only [Bool.or_eq_true, decide_eq_true_eq]
          exact le_total a.2 b.2)
        kept
    have hpwsplit : List.Pairwise (fun a b => decide (a.2 ≤ b.2) = true)
        ((kept.mergeSort fun a b => decide (a.2 ≤ b.2)).take
            (kept.length - POSTED_ID_MAX)
          ++ (kept.mergeSort fun a b => decide (a.2 ≤ b.2)).drop
            (kept.length - POSTED_ID_MAX)) := by
      rw [List.take_append_drop]
      exact hpw
    have hpw2 := (List.pairwise_append.mp hpwsplit).2.2
    have hle := hpw2 p (htr ▸ hpin) q hqdrop
    simpa using hle

/-- Claim C9 (confirmed): after `prune_posted_ids` runs on a posted-ids
map with distinct keys (a Python dict), the result contains no record
strictly older than the retention cutoff, holds at most `POSTED_ID_MAX`
records, every record removed was either expired or no newer than every
kept record (oldest-first removal on the count bound), and the returned
value is the number of removed records. -/
theorem prune_posted_ids_spec (m : PostedIds) (now : Time)
    (hkeys : (m.map Prod.fst).Nodup) :
    ((prune_posted_ids m now).1.length ≤ POSTED_ID_MAX) ∧
    (∀ p ∈ (prune_posted_ids m now).1, ¬ p.2 < retentionCutoff now) ∧
    (∀ p ∈ m, p ∉ (prune_posted_ids m now).1 →
      p.2 < retentionCutoff now ∨
      ∀ q ∈ (prune_posted_ids m now).1, p.2 ≤ q.2) ∧
    (prune_posted_ids m now).2 = m.length - (prune_posted_ids m now).1.length := by
  have hkept_nd : ((m.filter (fun p => decide (¬ p.2 < retentionCutoff now))).map
      Prod.fst).Nodup :=
    List.Nodup.sublist ((List.filter_sublist m).map Prod.fst) hkeys
  by_cases hov : POSTED_ID_MAX <
      (m.filter (fun p => decide (¬ p.2 < retentionCutoff now))).length
  · have hfst : (prune_posted_ids m now).1
        = (m.filter (fun p => decide (¬ p.2 < retentionCutoff now))).filter
            (fun p => decide (p.1 ∉
              (((m.filter (fun p => decide (¬ p.2 < retentionCutoff now))).mergeSort
                fun a b => decide (a.2 ≤ b.2)).take
                ((m.filter (fun p => decide (¬ p.2 < retentionCutoff now))).length
                  - POSTED_ID_MAX)).map Prod.fst)) := by
      simp only [prune_posted_ids]
      rw [if_pos hov]
    have hsnd : (prune_posted_ids m now).2
        = m.length - (prune_posted_ids m now).1.length := by
      conv_rhs => rw [hfst]
      simp only [prune_posted_ids]
      rw [if_pos hov]
    have htrim := trim_oldest_spec
      (m.filter (fun p => decide (¬ p.2 < retentionCutoff now))) _ _
      hkept_nd hov rfl rfl
    refine ⟨?_, ?_, ?_, hsnd⟩
    · rw [hfst]; exact htrim.1
    · intro p hp
      rw [hfst] at hp
      have h1 := (List.mem_filter.mp (List.mem_filter.mp hp).1).2
      simpa using h1
    · intro p hpm hpnot
      by_cases hexp : p.2 < retentionCutoff now
      · exact Or.inl hexp
      · refine Or.inr ?_
        have hpk : p ∈ m.filter (fun p => decide (¬ p.2 < retentionCutoff now)) :=
          List.mem_filter.mpr ⟨hpm, by simpa using hexp⟩
        intro q hq
        rw [hfst] at hpnot hq
        exact htrim.2 p hpk hpnot q hq
  · have hfst : (prune_posted_ids m now).1
        = m.filter (fun p => decide (¬ p.2 < retentionCutoff now)) := by
      simp only [prune_posted_ids]
      rw [if_neg hov]
    have hsnd : (prune_posted_ids m now).2
        = m.length - (prune_posted_ids m now).1.length := by
      conv_rhs => rw [hfst]
      simp only [prune_posted_ids]
      rw [if_neg hov]
    refine ⟨?_, ?_, ?_, hsnd⟩
    · rw [hfst]; omega
    · intro p hp
      rw [hfst] at hp
      simpa using (List.mem_filter.mp hp).2
    · intro p hpm hpnot
      rw [hfst] at hpnot
      by_cases hexp : p.2 < retentionCutoff now
      · exact Or.inl hexp
      · exact absurd (List.mem_filter.mpr ⟨hpm, by simpa using hexp⟩) hpnot

/-- Witness for C9 at a concrete two-record map, one record expired. -/
theorem prune_posted_ids_spec_witness :
    (([("a", (0 : Int)), ("b", (10000000 : Int))].map Prod.fst).Nodup) ∧
    (((prune_posted_ids [("a", 0), ("b", 10000000)] 10000000).1.length
        ≤ POSTED_ID_MAX) ∧
      (∀ p ∈ (prune_posted_ids [("a", 0), ("b", 10000000)] 10000000).1,
        ¬ p.2 < retentionCutoff 10000000) ∧
      (∀ p ∈ [("a", (0 : Int)), ("b", (10000000 : Int))],
        p ∉ (prune_posted_ids [("a", 0), ("b", 10000000)] 10000000).1 →
        p.2 < retentionCutoff 10000000 ∨
        ∀ q ∈ (prune_posted_ids [("a", 0), ("b", 10000000)] 10000000).1,
          p.2 ≤ q.2) ∧
      (prune_posted_ids [("a", 0), ("b", 10000000)] 10000000).2
        = ([("a", (0 : Int)), ("b", (10000000 : Int))]).length
          - (prune_posted_ids [("a", 0), ("b", 10000000)] 10000000).1.length) :=
  ⟨by decide, prune_posted_ids_spec [("a", 0), ("b", 10000000)] 10000000 (by decide)⟩

theorem getSite_setSite_self (st : GlobalState) (k : String) (v : SiteState) :
    getSite (setSite st k v) k = some v := by
  induction st with
  | nil => simp [setSite, getSite]
  | cons p rest ih =>
    by_cases h : p.1 = k
    · simp [setSite, getSite, h]
    · simp [setSite, getSite, h, ih]

theorem getSite_setSite_ne (st : GlobalState) {k k2 : String} (v : SiteState)
    (h : k2 ≠ k) : getSite (setSite st k v) k2 = getSite st k2 := by
  induction st with
  | nil => simp [setSite, getSite, Ne.symm h]
  | cons p rest ih =>
    by_cases hp : p.1 = k
    · have hp2 : ¬ p.1 = k2 := by rw [hp]; exact Ne.symm h
      simp [setSite, getSite, hp, hp2, Ne.symm h]
    · by_cases hp2 : p.1 = k2
      · simp [setSite, getSite, hp, hp2, h]
      · simp [setSite, getSite, hp, hp2, ih]

theorem getSite_updateSite_self (st : GlobalState) (k : String)
    (f : SiteState → SiteState) :
    getSite (updateSite st k f) k = (getSite st k).map f := by
  induction st with
  | nil => simp [updateSite, getSite]
  | cons p rest ih =>
    by_cases h : p.1 = k
    · simp [updateSite, getSite, h]
    · simp [updateSite, getSite, h, ih]

theorem getSite_updateSite_ne (st : GlobalState) {k k2 : String}
    (f : SiteState → SiteState) (h : k2 ≠ k) :
    getSite (updateSite st k f) k2 = getSite st k2 := by
  induction st with
  | nil => simp [updateSite, getSite]
  | cons p rest ih =>
    by_cases hp : p.1 = k
    · have hp2 : ¬ p.1 = k2 := by rw [hp]; exact Ne.symm h
      simp [updateSite, getSite, hp, hp2, Ne.symm h]
    · by_cases hp2 : p.1 = k2
      · simp [updateSite, getSite, hp, hp2, h]
      · simp [updateSite, getSite, hp, hp2, ih]

theorem getSite_normState_self (st : GlobalState) (k : String) :
    getSite (normState st k) k = some ((getSite st k).getD ⟨none, []⟩) :=
  getSite_setSite_self st k _

theorem getSite_normState_ne (st : GlobalState) {k k2 : String} (h : k2 ≠ k) :
    getSite (normState st k) k2 = getSite st k2 :=
  getSite_setSite_ne st _ h

theorem nvdPostedIds_normState (st : GlobalState) (k : String) :
    nvdPostedIds (normState st k) = nvdPostedIds st := by
  unfold nvdPostedIds
  by_cases h : ("nvd" : String) = k
  · subst h
    rw [getSite_normState_self]
    cases getSite st "nvd" <;> rfl
  · rw [getSite_normState_ne st h]

theorem nvdPostedIds_updateSite_last (st : GlobalState) (k : String) (t : Time) :
    nvdPostedIds (updateSite st k (fun s => { s with last_checked_at := some t }))
      = nvdPostedIds st := by
  unfold nvdPostedIds
  by_cases h : ("nvd" : String) = k
  · subst h
    rw [getSite_updateSite_self]
    cases getSite st "nvd" <;> rfl
  · rw [getSite_updateSite_ne st _ h]

theorem isSome_getSite_setSite (st : GlobalState) (k k2 : String) (v : SiteState)
    (h : (getSite st k2).isSome = true) :
    (getSite (setSite st k v) k2).isSome = true := by
  by_cases hk : k2 = k
  · subst hk
    rw [getSite_setSite_self]
    rfl
  · rw [getSite_setSite_ne st v hk]
    exact h

theorem isSome_getSite_processItem (cfg : RunConfig) (site : Site) (now : Time)
    (acc : SiteAcc) (ig : Item × GenOutcome) (k : String)
    (h : (getSite acc.state k).isSome = true) :
    (getSite (processItem cfg site now acc ig).state k).isSome = true := by
  simp only [processItem]
  split_ifs <;> first
    | exact h
    | exact isSome_getSite_setSite _ _ _ _ h

theorem isSome_getSite_foldl (cfg : RunConfig) (site : Site) (now : Time)
    (items : List (Item × GenOutcome)) (acc : SiteAcc) (k : String)
    (h : (getSite acc.state k).isSome = true) :
    (getSite ((items.foldl (processItem cfg site now) acc)).state k).isSome = true := by
  induction items generalizing acc with
  | nil => exact h
  | cons x xs ih =>
    exact ih _ (isSome_getSite_processItem _ _ _ _ _ _ h)

theorem processSite_watermark_aux (cfg : RunConfig) (siteKey : String) (site : Site)
    (state : GlobalState) (now : Time) (items : List (Item × GenOutcome)) :
    ∃ s, getSite (processSite cfg siteKey site state now items).state siteKey = some s ∧
      s.last_checked_at = some now := by
  simp only [processSite]
  have hsome : (getSite (if (((getSite (normState state siteKey) siteKey).getD
          ⟨none, []⟩).last_checked_at.isNone && cfg.skip_first && (cfg.mode == "prod"))
        = true
      then (⟨normState state siteKey, 0, 0, [], []⟩ : SiteAcc)
      else items.foldl (processItem cfg site now)
        ⟨normState state siteKey, 0, 0, [], []⟩).state siteKey).isSome = true := by
    split
    · rw [getSite_normState_self]
      rfl
    · exact isSome_getSite_foldl _ _ _ _ _ _ (by rw [getSite_normState_self]; rfl)
  rcases Option.isSome_iff_exists.mp hsome with ⟨s0, hs0⟩
  refine ⟨{ s0 with last_checked_at := some now }, ?_, rfl⟩
  rw [getSite_updateSite_self, hs0]
  rfl

theorem processItem_fields (cfg : RunConfig) (site : Site) (now : Time)
    (acc : SiteAcc) (ig : Item × GenOutcome) :
    (processItem cfg site now acc ig).posted_count
      = (if is_cve_already_posted ig.1.id site.type acc.state = true
         then acc.posted_count else acc.posted_count + 1) ∧
    (processItem cfg site now acc ig).logged
      = (if is_cve_already_posted ig.1.id site.type acc.state = true then acc.logged
         else if cfg.mode = "test" then
           acc.logged ++ [format_post site
             (if cfg.force_test = true then
                pySlice (body_trim ig.1.text site.type) SUMMARY_HARD_LIMIT
              else summarize ig.2) ig.1]
         else acc.logged) ∧
    (processItem cfg site now acc ig).published
      = (if is_cve_already_posted ig.1.id site.type acc.state = true then acc.published
         else if cfg.mode = "test" then acc.published
         else acc.published ++ [format_post site
             (if cfg.force_test = true then
                pySlice (body_trim ig.1.text site.type) SUMMARY_HARD_LIMIT
              else summarize ig.2) ig.1]) := by
  refine ⟨?_, ?_, ?_⟩ <;>
  · simp only [processItem]
    split_ifs <;> rfl

theorem processSite_single (cfg : RunConfig) (siteKey : String) (site : Site)
    (state : GlobalState) (now : Time) (item : Item) (g : GenOutcome)
    (hfs : (processSite cfg siteKey site state now [(item, g)]).first_skip = false) :
    (processSite cfg siteKey site state now [(item, g)]).posted_count
      = (if is_cve_already_posted item.id site.type (normState state siteKey) = true
         then 0 else 1) ∧
    (processSite cfg siteKey site state now [(item, g)]).logged
        ++ (processSite cfg siteKey site state now [(item, g)]).published
      = (if is_cve_already_posted item.id site.type (normState state siteKey) = true
         then ([] : List String)
         else [format_post site
           (if cfg.force_test = true then
              pySlice (body_trim item.text site.type) SUMMARY_HARD_LIMIT
            else summarize g) item]) := by
  simp only [processSite] at hfs ⊢
  rw [hfs]
  simp only [Bool.false_eq_true, if_false, List.foldl_cons, List.foldl_nil]
  rcases processItem_fields cfg site now ⟨normState state siteKey, 0, 0, [], []⟩
    (item, g) with ⟨h1, h2, h3⟩
  rw [h1, h2, h3]
  constructor
  · split_ifs <;> rfl
  · split_ifs <;> simp

/-- Claim C1 (corrected, amended form): for every source processed by the
per-source loop body, `last_checked_at` advances to `until` (= `now`)
unconditionally — including when the summarization oracle reports a
rate-limit error for some item, because `summarize` swallows every
exception into the fallback string and nothing aborts the source
(main.py lines 461–466: the update runs regardless of the results). -/
theorem last_checked_always_advances (cfg : RunConfig) (siteKey : String)
    (site : Site) (state : GlobalState) (now : Time)
    (items : List (Item × GenOutcome)) :
    ∃ s, getSite (processSite cfg siteKey site state now items).state siteKey
        = some s ∧ s.last_checked_at = some now :=
  processSite_watermark_aux cfg siteKey site state now items

/-- Claim C1 counterexample: a concrete prod-mode run in which the only
item's summarization raises a rate-limit error, yet the source is not
aborted (the item is posted with the fallback summary and recorded) and
`last_checked_at` advances from 100 to 200 instead of remaining
unchanged. -/
theorem rate_limit_watermark_counterexample :
    (processSite ⟨"prod", false, true⟩ "nvd" ⟨true, .nvd_api⟩
        [("nvd", ⟨some 100, []⟩)] 200
        [(⟨"CVE-2024-0001", "text", "u", some 98⟩, .err .rateLimit)]).posted_count
      = 1 ∧
    getSite (processSite ⟨"prod", false, true⟩ "nvd" ⟨true, .nvd_api⟩
        [("nvd", ⟨some 100, []⟩)] 200
        [(⟨"CVE-2024-0001", "text", "u", some 98⟩, .err .rateLimit)]).state "nvd"
      = some ⟨some 200, [("CVE-2024-0001", 200)]⟩ := by
  constructor
  · decide
  · decide

/-- Claim C5 (corrected, amended form): `summarize` makes exactly one
attempt and handles every service failure identically — rate-limit,
transient, or other — by returning the fixed fallback string; there is no
retry, no jittered backoff, no abort-source signal, and the watermark
still advances after a failing item. -/
theorem summarize_no_retry_no_abort :
    (∀ e, summarize (.err e) = FALLBACK_SUMMARY) ∧
    (∀ (cfg : RunConfig) (siteKey : String) (site : Site) (state : GlobalState)
        (now : Time) (item : Item) (e1 e2 : GenError),
      processSite cfg siteKey site state now [(item, .err e1)]
        = processSite cfg siteKey site state now [(item, .err e2)]) ∧
    (∀ (cfg : RunConfig) (siteKey : String) (site : Site) (state : GlobalState)
        (now : Time) (item : Item) (e : GenError),
      ∃ s, getSite (processSite cfg siteKey site state now
            [(item, .err e)]).state siteKey = some s ∧
        s.last_checked_at = some now) :=
  ⟨fun _ => rfl,
   fun _ _ _ _ _ _ _ _ => rfl,
   fun cfg siteKey site state now item e =>
     processSite_watermark_aux cfg siteKey site state now [(item, .err e)]⟩

/-- Claim C5 counterexample: at a concrete jvn source, a rate-limit
failure and a transient failure produce the very same run result — the
item is published with the fallback summary in both cases (no abort, no
retry distinguishing the two). -/
theorem rate_limit_vs_transient_counterexample :
    processSite ⟨"prod", false, false⟩ "jvnsite" ⟨true, .jvn⟩
        [("jvnsite", ⟨some 10, []⟩)] 20
        [(⟨"CVE-2024-9999", "v", "u2", some 50⟩, .err .rateLimit)]
      = processSite ⟨"prod", false, false⟩ "jvnsite" ⟨true, .jvn⟩
        [("jvnsite", ⟨some 10, []⟩)] 20
        [(⟨"CVE-2024-9999", "v", "u2", some 50⟩, .err .transient)] ∧
    (processSite ⟨"prod", false, false⟩ "jvnsite" ⟨true, .jvn⟩
        [("jvnsite", ⟨some 10, []⟩)] 20
        [(⟨"CVE-2024-9999", "v", "u2", some 50⟩, .err .rateLimit)]).posted_count
      = 1 := by
  constructor
  · rfl
  · decide

/-- Claim C6 (confirmed): `summarize` always returns at most
`SUMMARY_HARD_LIMIT` characters; on any service failure it returns the
fixed non-empty fallback string; and an item whose summarization failed
is still composed and published with that fallback text (not dropped). -/
theorem summarize_fallback_spec :
    (∀ g, (summarize g).length ≤ SUMMARY_HARD_LIMIT) ∧
    (∀ e, summarize (.err e) = FALLBACK_SUMMARY) ∧
    FALLBACK_SUMMARY ≠ "" ∧
    (∀ (cfg : RunConfig) (siteKey : String) (site : Site) (state : GlobalState)
        (now : Time) (item : Item) (e : GenError),
      cfg.force_test = false →
      (processSite cfg siteKey site state now [(item, .err e)]).first_skip = false →
      is_cve_already_posted item.id site.type (normState state siteKey) = false →
      (processSite cfg siteKey site state now [(item, .err e)]).posted_count = 1 ∧
      (processSite cfg siteKey site state now [(item, .err e)]).logged
          ++ (processSite cfg siteKey site state now [(item, .err e)]).published
        = [format_post site FALLBACK_SUMMARY item]) := by
  refine ⟨?_, fun _ => rfl, by decide, ?_⟩
  · intro g
    cases g with
    | ok t => exact safe_truncate_length_le _ _ (by norm_num [SUMMARY_HARD_LIMIT])
    | err e => exact (by decide : FALLBACK_SUMMARY.length ≤ SUMMARY_HARD_LIMIT)
  · intro cfg siteKey site state now item e hft hfs hcve
    rcases processSite_single cfg siteKey site state now item (.err e) hfs
      with ⟨h1, h2⟩
    rw [hcve] at h1 h2
    simp only [Bool.false_eq_true, if_false] at h1 h2
    rw [hft] at h2
    simp only [Bool.false_eq_true, if_false] at h2
    exact ⟨h1, h2⟩

/-- Witness for C6 at a concrete nvd source with a transient failure. -/
theorem summarize_fallback_spec_witness :
    ((⟨"test", false, true⟩ : RunConfig).force_test = false ∧
      (processSite ⟨"test", false, true⟩ "nvd" ⟨true, .nvd_api⟩
        [("nvd", ⟨some 0, []⟩)] 5
        [(⟨"CVE-1", "x", "u", some 98⟩, .err .transient)]).first_skip = false ∧
      is_cve_already_posted "CVE-1" SiteType.nvd_api
        (normState [("nvd", ⟨some 0, []⟩)] "nvd") = false) ∧
    ((processSite ⟨"test", false, true⟩ "nvd" ⟨true, .nvd_api⟩
        [("nvd", ⟨some 0, []⟩)] 5
        [(⟨"CVE-1", "x", "u", some 98⟩, .err .transient)]).posted_count = 1 ∧
      (processSite ⟨"test", false, true⟩ "nvd" ⟨true, .nvd_api⟩
        [("nvd", ⟨some 0, []⟩)] 5
        [(⟨"CVE-1", "x", "u", some 98⟩, .err .transient)]).logged
        ++ (processSite ⟨"test", false, true⟩ "nvd" ⟨true, .nvd_api⟩
          [("nvd", ⟨some 0, []⟩)] 5
          [(⟨"CVE-1", "x", "u", some 98⟩, .err .transient)]).published
      = [format_post ⟨true, .nvd_api⟩ FALLBACK_SUMMARY ⟨"CVE-1", "x", "u", some 98⟩]) :=
  ⟨⟨by decide, by decide, by decide⟩,
   summarize_fallback_spec.2.2.2 ⟨"test", false, true⟩ "nvd" ⟨true, .nvd_api⟩
     [("nvd", ⟨some 0, []⟩)] 5 ⟨"CVE-1", "x", "u", some 98⟩ .transient
     rfl (by decide) (by decide)⟩

/-- Claim C7 (corrected, amended form): the first-run skip policy takes
effect only in `"prod"` mode (main.py line 386).  In prod mode, on a
source whose `last_checked_at` is null and with `skip_existing_on_first_run`
set, no item is summarized or published, `last_checked_at` advances to
`now`, the source's `posted_ids` are untouched, and no other site entry
changes — in particular no per-item `skipped` record is written, because
the state holds no per-item delivery records at all (the skip is only
counted in a log line). -/
theorem processSite_skip_eq (cfg : RunConfig) (siteKey : String) (site : Site)
    (state : GlobalState) (now : Time) (items : List (Item × GenOutcome))
    (hb : (((getSite (normState state siteKey) siteKey).getD
        ⟨none, []⟩).last_checked_at.isNone && cfg.skip_first
          && (cfg.mode == "prod")) = true) :
    processSite cfg siteKey site state now items
      = ⟨updateSite (normState state siteKey) siteKey
            (fun s => { s with last_checked_at := some now }),
          items.length, 0, 0, [], [], true⟩ := by
  simp only [processSite]
  rw [hb]
  rfl

theorem first_run_skip_prod_spec (cfg : RunConfig) (siteKey : String) (site : Site)
    (state : GlobalState) (now : Time) (items : List (Item × GenOutcome))
    (hmode : cfg.mode = "prod") (hskip : cfg.skip_first = true)
    (hfirst : ((getSite state siteKey).getD ⟨none, []⟩).last_checked_at = none) :
    (processSite cfg siteKey site state now items).posted_count = 0 ∧
    (processSite cfg siteKey site state now items).published = [] ∧
    (processSite cfg siteKey site state now items).logged = [] ∧
    getSite (processSite cfg siteKey site state now items).state siteKey
      = some ⟨some now, ((getSite state siteKey).getD ⟨none, []⟩).posted_ids⟩ ∧
    (∀ k, k ≠ siteKey →
      getSite (processSite cfg siteKey site state now items).state k
        = getSite state k) := by
  have hb : (((getSite (normState state siteKey) siteKey).getD
      ⟨none, []⟩).last_checked_at.isNone && cfg.skip_first
        && (cfg.mode == "prod")) = true := by
    rw [getSite_normState_self]
    simp [hfirst, hskip, hmode]
  rw [processSite_skip_eq cfg siteKey site state now items hb]
  refine ⟨rfl, rfl, rfl, ?_, ?_⟩
  · show getSite (updateSite (normState state siteKey) siteKey
        (fun s => { s with last_checked_at := some now })) siteKey = _
    rw [getSite_updateSite_self, getSite_normState_self]
    rfl
  · intro k hk
    show getSite (updateSite (normState state siteKey) siteKey
        (fun s => { s with last_checked_at := some now })) k = _
    rw [getSite_updateSite_ne _ _ hk, getSite_normState_ne _ hk]

/-- Witness for C7's amended theorem on a concrete empty state. -/
theorem first_run_skip_prod_spec_witness :
    ((⟨"prod", true, true⟩ : RunConfig).mode = "prod" ∧
      (⟨"prod", true, true⟩ : RunConfig).skip_first = true ∧
      ((getSite [] "blog").getD ⟨none, []⟩).last_checked_at = none) ∧
    ((processSite ⟨"prod", true, true⟩ "blog" ⟨true, .rss⟩ [] 7
        [(⟨"https://a", "x", "https://a", none⟩, .ok "s")]).posted_count = 0 ∧
      (processSite ⟨"prod", true, true⟩ "blog" ⟨true, .rss⟩ [] 7
        [(⟨"https://a", "x", "https://a", none⟩, .ok "s")]).published = [] ∧
      (processSite ⟨"prod", true, true⟩ "blog" ⟨true, .rss⟩ [] 7
        [(⟨"https://a", "x", "https://a", none⟩, .ok "s")]).logged = [] ∧
      getSite (processSite ⟨"prod", true, true⟩ "blog" ⟨true, .rss⟩ [] 7
          [(⟨"https://a", "x", "https://a", none⟩, .ok "s")]).state "blog"
        = some ⟨some 7, ((getSite [] "blog").getD ⟨none, []⟩).posted_ids⟩ ∧
      (∀ k, k ≠ "blog" →
        getSite (processSite ⟨"prod", true, true⟩ "blog" ⟨true, .rss⟩ [] 7
            [(⟨"https://a", "x", "https://a", none⟩, .ok "s")]).state k
          = getSite [] k)) :=
  ⟨⟨rfl, rfl, by decide⟩,
   first_run_skip_prod_spec ⟨"prod", true, true⟩ "blog" ⟨true, .rss⟩ [] 7
     [(⟨"https://a", "x", "https://a", none⟩, .ok "s")] rfl rfl (by decide)⟩

/-- Claim C7 counterexample: with the skip policy active
(`skip_existing_on_first_run = true`) on a first run (no state entry), in
test mode the item is nevertheless summarized and processed
(`posted_count = 1`, the composed text is emitted), because the code also
requires `mode == "prod"` for the first-run skip. -/
theorem first_run_skip_test_mode_counterexample :
    (⟨"test", false, true⟩ : RunConfig).skip_first = true ∧
    (processSite ⟨"test", false, true⟩ "blog" ⟨true, .rss⟩ [] 100
        [(⟨"https://a", "x", "https://a", none⟩, .ok "hello")]).posted_count = 1 ∧
    (processSite ⟨"test", false, true⟩ "blog" ⟨true, .rss⟩ [] 100
        [(⟨"https://a", "x", "https://a", none⟩, .ok "hello")]).logged = ["hello"] :=
  ⟨rfl, by decide, by decide⟩

theorem processItem_rss_count (cfg : RunConfig) (site : Site) (now : Time)
    (acc : SiteAcc) (ig : Item × GenOutcome) (h : site.type = .rss) :
    (processItem cfg site now acc ig).posted_count = acc.posted_count + 1 := by
  have hcve : is_cve_already_posted ig.1.id site.type acc.state = false := by
    simp [is_cve_already_posted, h]
  rcases processItem_fields cfg site now acc ig with ⟨h1, _, _⟩
  rw [h1, hcve]
  simp

theorem foldl_rss_count (cfg : RunConfig) (site : Site) (now : Time)
    (h : site.type = .rss) (items : List (Item × GenOutcome)) :
    ∀ acc : SiteAcc,
      ((items.foldl (processItem cfg site now) acc)).posted_count
        = acc.posted_count + items.length := by
  induction items with
  | nil => intro acc; simp
  | cons x xs ih =>
    intro acc
    simp only [List.foldl_cons, List.length_cons]
    rw [ih _, processItem_rss_count _ _ _ _ _ h]
    omega

/-- Claim C4 (corrected, amended form): for rss sources the delivery
history is never consulted — `is_cve_already_posted` is identically false
for rss — so every item the fetcher yields in the window is summarized
and published, even when its id already appears in the source's
`posted_ids`; only the fetch time window prevents reprocessing. -/
theorem rss_no_dedup_spec :
    (∀ (cid : String) (state : GlobalState),
      is_cve_already_posted cid .rss state = false) ∧
    (∀ (cfg : RunConfig) (siteKey : String) (site : Site) (state : GlobalState)
        (now : Time) (items : List (Item × GenOutcome)),
      site.type = .rss →
      (processSite cfg siteKey site state now items).first_skip = false →
      (processSite cfg siteKey site state now items).posted_count
        = items.length) := by
  constructor
  · intro cid state
    simp [is_cve_already_posted]
  · intro cfg siteKey site state now items h hfs
    simp only [processSite] at hfs ⊢
    rw [hfs]
    simp only [Bool.false_eq_true, if_false]
    rw [foldl_rss_count cfg site now h items _]
    simp

/-- Witness for C4's amended theorem on a concrete rss run. -/
theorem rss_no_dedup_spec_witness :
    ((⟨true, .rss⟩ : Site).type = SiteType.rss ∧
      (processSite ⟨"prod", true, true⟩ "blog" ⟨true, .rss⟩
        [("blog", ⟨some 0, []⟩)] 9
        [(⟨"https://a", "x", "https://a", none⟩, .ok "s")]).first_skip = false) ∧
    (processSite ⟨"prod", true, true⟩ "blog" ⟨true, .rss⟩
        [("blog", ⟨some 0, []⟩)] 9
        [(⟨"https://a", "x", "https://a", none⟩, .ok "s")]).posted_count
      = ([(⟨"https://a", "x", "https://a", none⟩, GenOutcome.ok "s")]
          : List (Item × GenOutcome)).length :=
  ⟨⟨rfl, by decide⟩,
   rss_no_dedup_spec.2 ⟨"prod", true, true⟩ "blog" ⟨true, .rss⟩
     [("blog", ⟨some 0, []⟩)] 9
     [(⟨"https://a", "x", "https://a", none⟩, .ok "s")] rfl (by decide)⟩

/-- Claim C4 counterexample: an rss item whose id already has a success
record in the source's own history (its `posted_ids`) is published again
— the history is simply never checked for rss. -/
theorem rss_republishes_counterexample :
    dictMem (((getSite [("blog", ⟨some 0, [("https://a", 0)]⟩)] "blog").getD
        ⟨none, []⟩).posted_ids) "https://a" = true ∧
    (processSite ⟨"prod", true, true⟩ "blog" ⟨true, .rss⟩
        [("blog", ⟨some (0 : Int), [("https://a", (0 : Int))]⟩)] 100
        [(⟨"https://a", "long line text 12345", "https://a", none⟩,
          .ok "s")]).posted_count = 1 :=
  ⟨by decide, by decide⟩

theorem dictMem_of_mem {m : PostedIds} {k : String} {v : Time} (h : (k, v) ∈ m) :
    dictMem m k = true := by
  unfold dictMem
  rw [List.any_eq_true]
  exact ⟨(k, v), h, by simp⟩

theorem pair_mem_dictSet (m : PostedIds) (k : String) (v : Time) :
    (k, v) ∈ dictSet m k v := by
  unfold dictSet
  split
  · rename_i h
    unfold dictMem at h
    rw [List.any_eq_true] at h
    rcases h with ⟨p, hp, hpk⟩
    have hpk2 : p.1 = k := by simpa using hpk
    have himg : (fun q : String × Time => if q.1 = k then (k, v) else q) p
        = (k, v) := by
      show (if p.1 = k then (k, v) else p) = (k, v)
      rw [if_pos hpk2]
    exact List.mem_map.mpr ⟨p, hp, himg⟩
  · exact List.mem_append_right _ (by simp)

theorem length_dictSet_le (m : PostedIds) (k : String) (v : Time) :
    (dictSet m k v).length ≤ m.length + 1 := by
  unfold dictSet
  split
  · rw [List.length_map]
    omega
  · rw [List.length_append]
    simp

theorem mem_prune_of_le {m : PostedIds} {now : Time} {p : String × Time}
    (hmem : p ∈ m) (hfresh : ¬ p.2 < retentionCutoff now)
    (hlen : m.length ≤ POSTED_ID_MAX) :
    p ∈ (prune_posted_ids m now).1 := by
  have hkept : p ∈ m.filter (fun p => decide (¬ p.2 < retentionCutoff now)) :=
    List.mem_filter.mpr ⟨hmem, by simpa using hfresh⟩
  have hkle : (m.filter (fun p => decide (¬ p.2 < retentionCutoff now))).length
      ≤ POSTED_ID_MAX := le_trans (List.length_filter_le _ _) hlen
  have hfst : (prune_posted_ids m now).1
      = m.filter (fun p => decide (¬ p.2 < retentionCutoff now)) := by
    simp only [prune_posted_ids]
    rw [if_neg (by omega)]
  rw [hfst]
  exact hkept

theorem processSite_noskip_eq (cfg : RunConfig) (siteKey : String) (site : Site)
    (state : GlobalState) (now : Time) (items : List (Item × GenOutcome))
    (hb : (((getSite (normState state siteKey) siteKey).getD
        ⟨none, []⟩).last_checked_at.isNone && cfg.skip_first
          && (cfg.mode == "prod")) = false) :
    processSite cfg siteKey site state now items
      = ⟨updateSite ((items.foldl (processItem cfg site now)
            ⟨normState state siteKey, 0, 0, [], []⟩)).state siteKey
            (fun s => { s with last_checked_at := some now }),
          items.length,
          ((items.foldl (processItem cfg site now)
            ⟨normState state siteKey, 0, 0, [], []⟩)).posted_count,
          ((items.foldl (processItem cfg site now)
            ⟨normState state siteKey, 0, 0, [], []⟩)).cve_skip_count,
          ((items.foldl (processItem cfg site now)
            ⟨normState state siteKey, 0, 0, [], []⟩)).published,
          ((items.foldl (processItem cfg site now)
            ⟨normState state siteKey, 0, 0, [], []⟩)).logged,
          false⟩ := by
  simp only [processSite]
  rw [hb]
  rfl

theorem processSite_posted_zero_of_skip (cfg : RunConfig) (siteKey : String)
    (site : Site) (state : GlobalState) (now : Time)
    (items : List (Item × GenOutcome))
    (hfs : (processSite cfg siteKey site state now items).first_skip = true) :
    (processSite cfg siteKey site state now items).posted_count = 0 := by
  have hb : (((getSite (normState state siteKey) siteKey).getD
      ⟨none, []⟩).last_checked_at.isNone && cfg.skip_first
        && (cfg.mode == "prod")) = true := hfs
  rw [processSite_skip_eq cfg siteKey site state now items hb]

theorem processItem_state_scored (cfg : RunConfig) (site : Site) (now : Time)
    (acc : SiteAcc) (ig : Item × GenOutcome)
    (hcve : is_cve_already_posted ig.1.id site.type acc.state = false)
    (hcid : ig.1.id ≠ "") (htype : site.type ≠ .rss) :
    (processItem cfg site now acc ig).state
      = setSite acc.state "nvd"
          { (getSite acc.state "nvd").getD ⟨none, []⟩ with
            posted_ids := (prune_posted_ids
              (dictSet (((getSite acc.state "nvd").getD ⟨none, []⟩).posted_ids)
                ig.1.id now) now).1 } := by
  simp only [processItem]
  rw [hcve]
  simp only [Bool.false_eq_true, if_false]
  rw [if_pos (⟨hcid, htype⟩ : ig.1.id ≠ "" ∧ site.type ≠ .rss)]
  split_ifs <;> rfl

theorem nvdPostedIds_setSite_nvd (st : GlobalState) (v : SiteState) :
    nvdPostedIds (setSite st "nvd" v) = v.posted_ids := by
  unfold nvdPostedIds
  rw [getSite_setSite_self]
  rfl

theorem nvdPostedIds_getD (st : GlobalState) :
    ((getSite st "nvd").getD ⟨none, []⟩).posted_ids = nvdPostedIds st := by
  unfold nvdPostedIds
  cases getSite st "nvd" <;> rfl

theorem processSite_single_nvdPosted (cfg : RunConfig) (siteKey : String)
    (site : Site) (state : GlobalState) (now : Time) (item : Item) (g : GenOutcome)
    (hfs : (processSite cfg siteKey site state now [(item, g)]).first_skip = false)
    (hcve : is_cve_already_posted item.id site.type (normState state siteKey) = false)
    (hcid : item.id ≠ "") (htype : site.type ≠ .rss) :
    nvdPostedIds (processSite cfg siteKey site state now [(item, g)]).state
      = (prune_posted_ids (dictSet (nvdPostedIds state) item.id now) now).1 := by
  have hb : (((getSite (normState state siteKey) siteKey).getD
      ⟨none, []⟩).last_checked_at.isNone && cfg.skip_first
        && (cfg.mode == "prod")) = false := hfs
  rw [processSite_noskip_eq cfg siteKey site state now [(item, g)] hb]
  show nvdPostedIds (updateSite (([(item, g)].foldl (processItem cfg site now)
      ⟨normState state siteKey, 0, 0, [], []⟩)).state siteKey
      (fun s => { s with last_checked_at := some now })) = _
  rw [nvdPostedIds_updateSite_last]
  rw [List.foldl_cons, List.foldl_nil]
  rw [processItem_state_scored cfg site now ⟨normState state siteKey, 0, 0, [], []⟩
    (item, g) hcve hcid htype]
  rw [nvdPostedIds_setSite_nvd]
  show (prune_posted_ids (dictSet
      (((getSite (normState state siteKey) "nvd").getD ⟨none, []⟩).posted_ids)
      item.id now) now).1 = _
  rw [nvdPostedIds_getD, nvdPostedIds_normState]

/-- Claim C3 (confirmed): for scored-feed (nvd_api/jvn) sources, a
fetched item is summarized and published iff its id is absent from the
source's own recorded history and its CVE id is absent from the shared
identity index (`state["nvd"].posted_ids`) — the hypothesis `hown`, that
the source's own recorded ids all appear in the shared index, holds for
every state the program writes, since scored deliveries are recorded only
under the `"nvd"` key; and cross-source suppression holds: once a run of
source A delivers identity X, a later run of any scored source B
classifies X as already posted and publishes nothing for it. -/
theorem scored_feed_dedup_spec
    (cfg cfgB : RunConfig) (keyA keyB : String) (siteA siteB : Site)
    (state : GlobalState) (now nowB : Time) (item itemB : Item)
    (g gB : GenOutcome)
    (htA : siteA.type = .nvd_api ∨ siteA.type = .jvn)
    (htB : siteB.type = .nvd_api ∨ siteB.type = .jvn)
    (hcid : item.id ≠ "")
    (hidB : itemB.id = item.id)
    (hfsA : (processSite cfg keyA siteA state now [(item, g)]).first_skip = false)
    (hown : ∀ k ∈ (((getSite state keyA).getD ⟨none, []⟩).posted_ids.map Prod.fst),
      dictMem (nvdPostedIds state) k = true)
    (hlen : (nvdPostedIds state).length < POSTED_ID_MAX) :
    ((processSite cfg keyA siteA state now [(item, g)]).posted_count = 1 ↔
      (item.id ∉ ((getSite state keyA).getD ⟨none, []⟩).posted_ids.map Prod.fst ∧
        dictMem (nvdPostedIds state) item.id = false)) ∧
    ((processSite cfg keyA siteA state now [(item, g)]).posted_count = 1 →
      is_cve_already_posted itemB.id siteB.type
          (processSite cfg keyA siteA state now [(item, g)]).state = true ∧
      (processSite cfgB keyB siteB
          (processSite cfg keyA siteA state now [(item, g)]).state nowB
          [(itemB, gB)]).posted_count = 0) := by
  have htArss : siteA.type ≠ .rss := by rcases htA with h | h <;> simp [h]
  have htBrss : siteB.type ≠ .rss := by rcases htB with h | h <;> simp [h]
  have hcveA : is_cve_already_posted item.id siteA.type (normState state keyA)
      = dictMem (nvdPostedIds state) item.id := by
    unfold is_cve_already_posted
    rw [if_neg (by push_neg; exact ⟨hcid, htArss⟩), nvdPostedIds_normState]
  have hcount := (processSite_single cfg keyA siteA state now item g hfsA).1
  constructor
  · rw [hcount, hcveA]
    constructor
    · intro h1
      by_cases hd : dictMem (nvdPostedIds state) item.id = true
      · rw [if_pos hd] at h1
        exact absurd h1 (by decide)
      · have hdf : dictMem (nvdPostedIds state) item.id = false := by
          revert hd
          cases dictMem (nvdPostedIds state) item.id <;> simp
        exact ⟨fun hmem => hd (hown item.id hmem), hdf⟩
    · rintro ⟨_, h2⟩
      rw [h2]
      simp
  · intro hposted
    have hcvefalse : is_cve_already_posted item.id siteA.type
        (normState state keyA) = false := by
      by_contra hc
      have hct : is_cve_already_posted item.id siteA.type
          (normState state keyA) = true := by
        revert hc
        cases is_cve_already_posted item.id siteA.type (normState state keyA) <;> simp
      rw [hct, if_pos rfl] at hcount
      rw [hcount] at hposted
      exact absurd hposted (by decide)
    have hstate := processSite_single_nvdPosted cfg keyA siteA state now item g
      hfsA hcvefalse hcid htArss
    have hmem : (item.id, now)
        ∈ (prune_posted_ids (dictSet (nvdPostedIds state) item.id now) now).1 := by
      have hfresh : ¬ ((item.id, now).2 < retentionCutoff now) := by
        show ¬ (now < now - POSTED_ID_RETENTION_DAYS * SECONDS_PER_DAY)
        norm_num [POSTED_ID_RETENTION_DAYS, SECONDS_PER_DAY]
      have hlen2 : (dictSet (nvdPostedIds state) item.id now).length
          ≤ POSTED_ID_MAX := by
        have h1 := length_dictSet_le (nvdPostedIds state) item.id now
        omega
      exact mem_prune_of_le (pair_mem_dictSet (nvdPostedIds state) item.id now)
        hfresh hlen2
    have hdictA : dictMem
        (nvdPostedIds (processSite cfg keyA siteA state now [(item, g)]).state)
        item.id = true := by
      rw [hstate]
      exact dictMem_of_mem hmem
    have hcidB : itemB.id ≠ "" := by rw [hidB]; exact hcid
    have hcveB : is_cve_already_posted itemB.id siteB.type
        (processSite cfg keyA siteA state now [(item, g)]).state = true := by
      unfold is_cve_already_posted
      rw [if_neg (by push_neg; exact ⟨hcidB, htBrss⟩), hidB]
      exact hdictA
    refine ⟨hcveB, ?_⟩
    by_cases hfsB : (processSite cfgB keyB siteB
        (processSite cfg keyA siteA state now [(item, g)]).state nowB
        [(itemB, gB)]).first_skip = true
    · exact processSite_posted_zero_of_skip _ _ _ _ _ _ hfsB
    · have hfsB2 : (processSite cfgB keyB siteB
          (processSite cfg keyA siteA state now [(item, g)]).state nowB
          [(itemB, gB)]).first_skip = false := by
        revert hfsB
        cases (processSite cfgB keyB siteB
          (processSite cfg keyA siteA state now [(item, g)]).state nowB
          [(itemB, gB)]).first_skip <;> simp
      have hcB := (processSite_single cfgB keyB siteB
        (processSite cfg keyA siteA state now [(item, g)]).state nowB
        itemB gB hfsB2).1
      have hcveB2 : is_cve_already_posted itemB.id siteB.type
          (normState (processSite cfg keyA siteA state now [(item, g)]).state keyB)
          = true := by
        unfold is_cve_already_posted
        rw [if_neg (by push_neg; exact ⟨hcidB, htBrss⟩),
          nvdPostedIds_normState, hidB]
        exact hdictA
      rw [hcB, hcveB2, if_pos rfl]

/-- Witness for C3 on concrete A (nvd_api) and B (jvn) sources: the shared
index already holds CVE-OLD, source A delivers CVE-1, and source B then
classifies CVE-1 as not-new and publishes nothing. -/
theorem scored_feed_dedup_spec_witness :
    (((⟨true, .nvd_api⟩ : Site).type = SiteType.nvd_api
        ∨ (⟨true, .nvd_api⟩ : Site).type = SiteType.jvn) ∧
      ((⟨true, .jvn⟩ : Site).type = SiteType.nvd_api
        ∨ (⟨true, .jvn⟩ : Site).type = SiteType.jvn) ∧
      ("CVE-1" : String) ≠ "" ∧
      (processSite ⟨"prod", true, true⟩ "nvd" ⟨true, .nvd_api⟩
        [("nvd", ⟨some 0, [("CVE-OLD", 5)]⟩)] 100
        [(⟨"CVE-1", "x", "u", some 98⟩, .ok "s")]).first_skip = false ∧
      (∀ k ∈ (((getSite [("nvd", ⟨some 0, [("CVE-OLD", 5)]⟩)] "nvd").getD
          ⟨none, []⟩).posted_ids.map Prod.fst),
        dictMem (nvdPostedIds [("nvd", ⟨some 0, [("CVE-OLD", 5)]⟩)]) k = true) ∧
      (nvdPostedIds [("nvd", ⟨some 0, [("CVE-OLD", 5)]⟩)]).length
        < POSTED_ID_MAX) ∧
    (((processSite ⟨"prod", true, true⟩ "nvd" ⟨true, .nvd_api⟩
        [("nvd", ⟨some 0, [("CVE-OLD", 5)]⟩)] 100
        [(⟨"CVE-1", "x", "u", some 98⟩, .ok "s")]).posted_count = 1 ↔
      (("CVE-1" : String) ∉ ((getSite [("nvd", ⟨some 0, [("CVE-OLD", 5)]⟩)]
          "nvd").getD ⟨none, []⟩).posted_ids.map Prod.fst ∧
        dictMem (nvdPostedIds [("nvd", ⟨some 0, [("CVE-OLD", 5)]⟩)])
          "CVE-1" = false)) ∧
      ((processSite ⟨"prod", true, true⟩ "nvd" ⟨true, .nvd_api⟩
          [("nvd", ⟨some 0, [("CVE-OLD", 5)]⟩)] 100
          [(⟨"CVE-1", "x", "u", some 98⟩, .ok "s")]).posted_count = 1 →
        is_cve_already_posted "CVE-1" SiteType.jvn
            (processSite ⟨"prod", true, true⟩ "nvd" ⟨true, .nvd_api⟩
              [("nvd", ⟨some 0, [("CVE-OLD", 5)]⟩)] 100
              [(⟨"CVE-1", "x", "u", some 98⟩, .ok "s")]).state = true ∧
        (processSite ⟨"prod", true, true⟩ "jvnsite" ⟨true, .jvn⟩
            (processSite ⟨"prod", true, true⟩ "nvd" ⟨true, .nvd_api⟩
              [("nvd", ⟨some 0, [("CVE-OLD", 5)]⟩)] 100
              [(⟨"CVE-1", "x", "u", some 98⟩, .ok "s")]).state 200
            [(⟨"CVE-1", "y", "u2", some 70⟩, .ok "t")]).posted_count = 0)) :=
  ⟨⟨Or.inl rfl, Or.inr rfl, by decide, by decide, by decide, by decide⟩,
   scored_feed_dedup_spec ⟨"prod", true, true⟩ ⟨"prod", true, true⟩
     "nvd" "jvnsite" ⟨true, .nvd_api⟩ ⟨true, .jvn⟩
     [("nvd", ⟨some 0, [("CVE-OLD", 5)]⟩)] 100 200
     ⟨"CVE-1", "x", "u", some 98⟩ ⟨"CVE-1", "y", "u2", some 70⟩
     (.ok "s") (.ok "t")
     (Or.inl rfl) (Or.inr rfl) (by decide) rfl (by decide) (by decide)
     (by decide)⟩

theorem processItem_published_test (cfg : RunConfig) (site : Site) (now : Time)
    (acc : SiteAcc) (ig : Item × GenOutcome) (h : cfg.mode = "test") :
    (processItem cfg site now acc ig).published = acc.published := by
  rcases processItem_fields cfg site now acc ig with ⟨_, _, h3⟩
  rw [h3]
  split_ifs <;> rfl

theorem foldl_published_test (cfg : RunConfig) (site : Site) (now : Time)
    (h : cfg.mode = "test") (items : List (Item × GenOutcome)) :
    ∀ acc : SiteAcc,
      ((items.foldl (processItem cfg site now) acc)).published = acc.published := by
  induction items with
  | nil => intro acc; rfl
  | cons x xs ih =>
    intro acc
    rw [List.foldl_cons, ih _, processItem_published_test _ _ _ _ _ h]

theorem processSite_published_test (cfg : RunConfig) (siteKey : String)
    (site : Site) (state : GlobalState) (now : Time)
    (items : List (Item × GenOutcome)) (h : cfg.mode = "test") :
    (processSite cfg siteKey site state now items).published = [] := by
  simp only [processSite]
  split
  · rfl
  · exact foldl_published_test cfg site now h items _

theorem runStep_dirty (cfg : RunConfig) (now : Time) (acc : RunAcc) (s : SiteSpec) :
    (runStep cfg now acc s).dirty
      = (acc.dirty || (s.site.enabled && decide (s.site.type ≠ SiteType.other))) := by
  unfold runStep
  split_ifs with h1 h2
  · rw [h1]
    simp
  · rw [h2]
    simp
  · have he : s.site.enabled = true := by
      revert h1
      cases s.site.enabled <;> simp
    simp [he, h2]

theorem foldl_runStep_dirty (cfg : RunConfig) (now : Time) (sites : List SiteSpec) :
    ∀ acc : RunAcc,
      ((sites.foldl (runStep cfg now) acc)).dirty
        = (acc.dirty || sites.any
            (fun s => s.site.enabled && decide (s.site.type ≠ SiteType.other))) := by
  induction sites with
  | nil => intro acc; simp
  | cons x xs ih =>
    intro acc
    rw [List.foldl_cons, ih _, runStep_dirty]
    simp [Bool.or_assoc]

theorem runStep_published_test (cfg : RunConfig) (now : Time) (acc : RunAcc)
    (s : SiteSpec) (h : cfg.mode = "test") :
    (runStep cfg now acc s).published = acc.published := by
  simp only [runStep]
  split_ifs
  · rfl
  · rfl
  · rw [processSite_published_test cfg s.key s.site acc.state now s.items h]
    simp

theorem foldl_runStep_published_test (cfg : RunConfig) (now : Time)
    (h : cfg.mode = "test") (sites : List SiteSpec) :
    ∀ acc : RunAcc,
      ((sites.foldl (runStep cfg now) acc)).published = acc.published := by
  induction sites with
  | nil => intro acc; rfl
  | cons x xs ih =>
    intro acc
    rw [List.foldl_cons, ih _, runStep_published_test _ _ _ _ h]

/-- Claim C8 (confirmed): the state file is written only by the single
commit at the end of `main`, and only when the mode is `"prod"` and
`state_dirty` was set — which happens exactly when some enabled source of
a known type was processed; in `"test"` mode nothing is ever written and
nothing is published to the network (the pipeline output goes to the log
lists instead). -/
theorem commit_gating_spec (cfg : RunConfig) (sites : List SiteSpec)
    (state0 : GlobalState) (now : Time) :
    ((runMain cfg sites state0 now).written
      = if cfg.mode = "prod" ∧ (runMain cfg sites state0 now).state_dirty = true
        then some (runMain cfg sites state0 now).state else none) ∧
    ((runMain cfg sites state0 now).state_dirty
      = sites.any (fun s => s.site.enabled && decide (s.site.type ≠ SiteType.other))) ∧
    (cfg.mode = "test" →
      (runMain cfg sites state0 now).written = none ∧
      (runMain cfg sites state0 now).published = []) := by
  refine ⟨rfl, ?_, ?_⟩
  · show ((sites.foldl (runStep cfg now) ⟨state0, false, [], []⟩)).dirty = _
    rw [foldl_runStep_dirty]
    simp
  · intro h
    constructor
    · show (if cfg.mode = "prod" ∧
          ((sites.foldl (runStep cfg now) ⟨state0, false, [], []⟩)).dirty = true
        then some ((sites.foldl (runStep cfg now) ⟨state0, false, [], []⟩)).state
        else none) = none
      have hnc : ¬ (cfg.mode = "prod" ∧
          ((sites.foldl (runStep cfg now) ⟨state0, false, [], []⟩)).dirty = true) := by
        rintro ⟨h1, _⟩
        rw [h] at h1
        exact absurd h1 (by decide)
      rw [if_neg hnc]
    · show ((sites.foldl (runStep cfg now) ⟨state0, false, [], []⟩)).published = []
      exact foldl_runStep_published_test cfg now h sites ⟨state0, false, [], []⟩

/-- Witness for C8 on a concrete test-mode run with one enabled rss site:
nothing is written and nothing is published. -/
theorem commit_gating_spec_witness :
    (runMain ⟨"test", true, true⟩
        [⟨"blog", ⟨true, .rss⟩, [(⟨"https://a", "x", "https://a", none⟩, .ok "hi")]⟩]
        [] 5).written = none ∧
    (runMain ⟨"test", true, true⟩
        [⟨"blog", ⟨true, .rss⟩, [(⟨"https://a", "x", "https://a", none⟩, .ok "hi")]⟩]
        [] 5).published = [] :=
  (commit_gating_spec ⟨"test", true, true⟩
    [⟨"blog", ⟨true, .rss⟩, [(⟨"https://a", "x", "https://a", none⟩, .ok "hi")]⟩]
    [] 5).2.2 rfl

end BSTool
